import Mathlib

/-!
Shallow embedding of the guilhermebr/finance personal-finance ledger:
entities, the transaction/account/category/balance use cases
(`domain/finance/*.go`), the SQL balance aggregation
(`internal/repository/pg/migrations/000002_create_finance_tables.up.sql`,
`internal/repository/pg/finance.sql`) and the HTTP-handler date handling
(`internal/api/v1/transaction_handlers.go`), together with theorems
checking the natural-language specification against this code.
-/

deriving instance DecidableEq for Except

namespace Finance

/-- Model of Go `time.Time` restricted to the fields this code observes:
calendar date plus time of day.  The Go zero value is January 1, year 1,
00:00:00 UTC. -/
structure GoTime where
  year : Nat
  month : Nat
  day : Nat
  hour : Nat
  minute : Nat
  second : Nat
deriving DecidableEq, Repr

/-- Go's `time.Time` zero value. -/
def GoTime.zero : GoTime := ⟨1, 1, 1, 0, 0, 0⟩

/-- Go `time.Time.IsZero`. -/
def GoTime.isZero (t : GoTime) : Bool := decide (t = GoTime.zero)

/-- Modelled from the spec: the external `gox/monetary` value object, an
(asset-code, integer-minor-units) pair; the library itself is a dependency
and not part of this repository's sources. -/
structure Monetary where
  asset : String
  amount : Int
deriving DecidableEq, Repr

/-- Environment of the use cases: the set of asset codes recognized by the
external `monetary.FindAssetByName` table, and the current wall-clock time
`time.Now()`. -/
structure Env where
  validAsset : String → Bool
  now : GoTime

/-- Modelled from the spec: `monetary.NewMonetary(asset, amount)` from the
external `gox/monetary` dependency builds the (asset, amount) pair,
failing exactly when the asset code is not a recognized asset. -/
def NewMonetary (env : Env) (asset : String) (amount : Int) : Option Monetary :=
  if env.validAsset asset then some ⟨asset, amount⟩ else none

/-- `entities.AccountType`; the five values allowed by the Go constants and
the `accounts.type` CHECK constraint. -/
inductive AccountType where
  | checking
  | savings
  | credit
  | investment
  | cash
deriving DecidableEq, BEq, Repr

/-- `entities.CategoryType`; the two values allowed by the Go constants and
the `categories.type` CHECK constraint. -/
inductive CategoryType where
  | income
  | expense
deriving DecidableEq, Repr

/-- `entities.Account` (fields the use cases read; `Asset` is the external
asset record, of which the code only reads the `.Asset` code string). -/
structure Account where
  id : String
  name : String
  type : AccountType
  asset : String
  description : String
deriving DecidableEq, Repr

/-- Zero value of `entities.Account`, as returned by the pg repositories on
`sql.ErrNoRows`. -/
def Account.empty : Account := ⟨"", "", AccountType.checking, "", ""⟩

/-- `entities.Category` (fields the use cases read). -/
structure Category where
  id : String
  name : String
  type : CategoryType
  color : String
deriving DecidableEq, Repr

/-- `entities.Transaction` (fields the use cases read). `Status` is a Go
string type, kept as a string since validation inspects arbitrary values. -/
structure Transaction where
  id : String
  accountID : String
  categoryID : String
  monetary : Monetary
  description : String
  date : GoTime
  status : String
deriving DecidableEq, Repr

/-- The relational store: the three base tables the use cases touch. -/
structure DB where
  accounts : List Account
  categories : List Category
  transactions : List Transaction
deriving Repr

/-- Repository calls the use cases can issue, recorded as a trace so that
"no repository call happens before validation" is expressible. -/
inductive RepoCall where
  | getAccount (id : String)
  | getCategory (id : String)
  | getTransaction (id : String)
  | createTransaction (t : Transaction)
  | updateTransaction (t : Transaction)
  | deleteTransaction (id : String)
  | deleteAccount (id : String)
  | deleteCategory (id : String)
  | refreshBalance (accountID : String)
deriving DecidableEq, Repr

/-- `AccountRepository.GetAccountByID`: the matching row, or the zero value
when no row exists (`sql.ErrNoRows` path of the pg repository). -/
def getAccountByID (db : DB) (id : String) : Account :=
  (db.accounts.find? (fun a => a.id == id)).getD Account.empty

/-- `CategoryRepository.GetCategoryByID`: the matching row, or the zero
value when no row exists. -/
def getCategoryByID (db : DB) (id : String) : Category :=
  (db.categories.find? (fun c => c.id == id)).getD ⟨"", "", CategoryType.income, ""⟩

/-- `TransactionRepository.GetTransactionByID`: the matching row, or the
zero value when no row exists. -/
def getTransactionByID (db : DB) (id : String) : Transaction :=
  (db.transactions.find? (fun t => t.id == id)).getD
    ⟨"", "", "", ⟨"", 0⟩, "", GoTime.zero, ""⟩

/-- Go `unicode.IsSpace`: the characters `strings.TrimSpace` strips. -/
def goIsSpace (c : Char) : Bool :=
  c == '\t' || c == '\n' || c == Char.ofNat 11 || c == Char.ofNat 12 ||
  c == '\r' || c == ' ' || c == Char.ofNat 0x85 || c == Char.ofNat 0xA0 ||
  c == Char.ofNat 0x1680 ||
  (0x2000 ≤ c.toNat && c.toNat ≤ 0x200A) ||
  c == Char.ofNat 0x2028 || c == Char.ofNat 0x2029 ||
  c == Char.ofNat 0x202F || c == Char.ofNat 0x205F || c == Char.ofNat 0x3000

/-- Go `strings.TrimSpace`: strip leading and trailing white space. -/
def goTrimSpace (s : String) : String :=
  String.mk (((s.toList.dropWhile goIsSpace).reverse.dropWhile goIsSpace).reverse)

/-- The three transaction statuses accepted by `validateTransaction`. -/
def validStatuses : List String := ["pending", "cleared", "cancelled"]

/-- `TransactionUseCase.validateTransaction`; `some msg` is the returned
error, `none` means the input passed validation. -/
def validateTransaction (t : Transaction) : Option String :=
  if t.accountID = "" then some "account ID cannot be empty"
  else if t.categoryID = "" then some "category ID cannot be empty"
  else if t.monetary.amount = 0 then some "transaction amount cannot be zero"
  else if goTrimSpace t.description = "" then
    some "transaction description cannot be empty"
  else if t.status ≠ "" ∧ t.status ∉ validStatuses then
    some ("invalid transaction status: " ++ t.status)
  else none

/-- The claim C7's enumeration of inputs `validateTransaction` rejects:
empty account id, empty category id, zero amount, empty or whitespace-only
description, or a non-empty status outside the enum. -/
def InvalidInput (t : Transaction) : Prop :=
  t.accountID = "" ∨ t.categoryID = "" ∨ t.monetary.amount = 0 ∨
  goTrimSpace t.description = "" ∨ (t.status ≠ "" ∧ t.status ∉ validStatuses)

/-- `TransactionUseCase.convertTransactionToAccountAsset`: re-denominate the
transaction's monetary value into the account's asset keeping the numeric
amount; identity when the assets already agree or the constructor fails. -/
def convertTransactionToAccountAsset (env : Env) (t : Transaction)
    (account : Account) : Transaction :=
  if t.monetary.asset = account.asset then t
  else
    match NewMonetary env account.asset t.monetary.amount with
    | some m => { t with monetary := m }
    | none => t

/-- `TransactionUseCase.adjustTransactionAmount`: force expense amounts
negative and income amounts positive, via two sequential guarded
negations. -/
def adjustTransactionAmount (env : Env) (t : Transaction)
    (category : Category) : Transaction :=
  let t1 :=
    if category.type = CategoryType.expense ∧ 0 < t.monetary.amount then
      match NewMonetary env t.monetary.asset (-t.monetary.amount) with
      | some m => { t with monetary := m }
      | none => t
    else t
  if category.type = CategoryType.income ∧ t1.monetary.amount < 0 then
    match NewMonetary env t1.monetary.asset (-t1.monetary.amount) with
    | some m => { t1 with monetary := m }
    | none => t1
  else t1

/-- `TransactionUseCase.CreateTransaction` (database failures are not
modelled; the pg layer's not-found convention is the zero value).  Returns
the use-case result — the row handed to `transactionRepo.CreateTransaction`,
which the repository returns as stored — together with the trace of
repository calls that were issued. -/
def createTransaction (env : Env) (db : DB) (t : Transaction) :
    Except String Transaction × List RepoCall :=
  match validateTransaction t with
  | some e => (Except.error e, [])
  | none =>
    let account := getAccountByID db t.accountID
    if account.id = "" then
      (Except.error "account not found", [RepoCall.getAccount t.accountID])
    else
      let t1 := convertTransactionToAccountAsset env t account
      let category := getCategoryByID db t1.categoryID
      if category.id = "" then
        (Except.error "category not found",
          [RepoCall.getAccount t.accountID, RepoCall.getCategory t1.categoryID])
      else
        let t2 := if t1.status = "" then { t1 with status := "cleared" } else t1
        let t3 := if t2.date.isZero then { t2 with date := env.now } else t2
        (Except.ok t3,
          [RepoCall.getAccount t.accountID, RepoCall.getCategory t1.categoryID,
            RepoCall.createTransaction t3, RepoCall.refreshBalance t3.accountID])

/-- `TransactionUseCase.UpdateTransaction`, with its repository-call
trace. -/
def updateTransaction (env : Env) (db : DB) (t : Transaction) :
    Except String Transaction × List RepoCall :=
  match validateTransaction t with
  | some e => (Except.error e, [])
  | none =>
    if t.id = "" then (Except.error "transaction ID cannot be empty", [])
    else
      let existing := getTransactionByID db t.id
      if existing.id = "" then
        (Except.error "transaction not found", [RepoCall.getTransaction t.id])
      else
        let account := getAccountByID db t.accountID
        if account.id = "" then
          (Except.error "account not found",
            [RepoCall.getTransaction t.id, RepoCall.getAccount t.accountID])
        else
          let t1 := convertTransactionToAccountAsset env t account
          let category := getCategoryByID db t1.categoryID
          if category.id = "" then
            (Except.error "category not found",
              [RepoCall.getTransaction t.id, RepoCall.getAccount t.accountID,
                RepoCall.getCategory t1.categoryID])
          else
            let t2 := adjustTransactionAmount env t1 category
            (Except.ok t2,
              [RepoCall.getTransaction t.id, RepoCall.getAccount t.accountID,
                RepoCall.getCategory t1.categoryID,
                RepoCall.updateTransaction t2,
                RepoCall.refreshBalance t2.accountID] ++
                (if existing.accountID ≠ t2.accountID then
                  [RepoCall.refreshBalance existing.accountID] else []))

/-- `TransactionUseCase.DeleteTransaction`, with its repository-call
trace. -/
def deleteTransaction (db : DB) (id : String) :
    Except String Unit × List RepoCall :=
  if id = "" then (Except.error "transaction ID cannot be empty", [])
  else
    let t := getTransactionByID db id
    if t.id = "" then
      (Except.error "transaction not found", [RepoCall.getTransaction id])
    else
      (Except.ok (),
        [RepoCall.getTransaction id, RepoCall.deleteTransaction id,
          RepoCall.refreshBalance t.accountID])

/-- `AccountUseCase.DeleteAccount`, with its repository-call trace. -/
def deleteAccount (db : DB) (id : String) :
    Except String Unit × List RepoCall :=
  if id = "" then (Except.error "account ID cannot be empty", [])
  else
    let a := getAccountByID db id
    if a.id = "" then
      (Except.error "account not found", [RepoCall.getAccount id])
    else
      (Except.ok (), [RepoCall.getAccount id, RepoCall.deleteAccount id])

/-- `CategoryUseCase.DeleteCategory`, with its repository-call trace. -/
def deleteCategory (db : DB) (id : String) :
    Except String Unit × List RepoCall :=
  if id = "" then (Except.error "category ID cannot be empty", [])
  else
    let c := getCategoryByID db id
    if c.id = "" then
      (Except.error "category not found", [RepoCall.getCategory id])
    else
      (Except.ok (), [RepoCall.getCategory id, RepoCall.deleteCategory id])

/-- Numeric value of a decimal digit character. -/
def digitVal (c : Char) : Nat := c.toNat - 48

/-- Whether a character is an ASCII decimal digit. -/
def isDigitChar (c : Char) : Bool := 48 ≤ c.toNat && c.toNat ≤ 57

/-- Go `isLeap` (time package): leap-year rule used by `daysIn`. -/
def isLeapYear (y : Nat) : Bool :=
  y % 4 == 0 && (y % 100 != 0 || y % 400 == 0)

/-- Go `daysIn(month, year)` from the time package. -/
def daysIn (m y : Nat) : Nat :=
  if m = 2 then (if isLeapYear y then 29 else 28)
  else if m = 4 ∨ m = 6 ∨ m = 9 ∨ m = 11 then 30
  else 31

/-- Go `time.Parse("2006-01-02", s)`: a four-digit year, a dash, a
two-digit month, a dash, and a two-digit day, nothing more; months must be
1–12 and days 1–`daysIn(month, year)`.  Success yields that calendar date
at 00:00:00 UTC. -/
def parseYYYYMMDD (s : String) : Option GoTime :=
  match s.toList with
  | [y1, y2, y3, y4, h1, m1, m2, h2, d1, d2] =>
    if isDigitChar y1 && isDigitChar y2 && isDigitChar y3 && isDigitChar y4 &&
        h1 == '-' && h2 == '-' &&
        isDigitChar m1 && isDigitChar m2 && isDigitChar d1 && isDigitChar d2 then
      let y := 1000 * digitVal y1 + 100 * digitVal y2 + 10 * digitVal y3 +
        digitVal y4
      let m := 10 * digitVal m1 + digitVal m2
      let d := 10 * digitVal d1 + digitVal d2
      if 1 ≤ m ∧ m ≤ 12 ∧ 1 ≤ d ∧ d ≤ daysIn m y then
        some ⟨y, m, d, 0, 0, 0⟩
      else none
    else none
  | _ => none

/-- Two zero-padded decimal digits, as Go's `01`/`02` layout fields emit. -/
def pad2 (n : Nat) : List Char :=
  [Char.ofNat (48 + n / 10 % 10), Char.ofNat (48 + n % 10)]

/-- Four zero-padded decimal digits, as Go's `2006` layout field emits. -/
def pad4 (n : Nat) : List Char :=
  [Char.ofNat (48 + n / 1000 % 10), Char.ofNat (48 + n / 100 % 10),
    Char.ofNat (48 + n / 10 % 10), Char.ofNat (48 + n % 10)]

/-- Go `t.Format("2006-01-02")`, the rendering the handlers use for
response dates. -/
def formatYYYYMMDD (t : GoTime) : String :=
  String.mk (pad4 t.year ++ '-' :: pad2 t.month ++ '-' :: pad2 t.day)

/-- A row of the `balances` table (amounts in minor units; the SQL stores
`DECIMAL(12,2)`). -/
structure BalanceRow where
  accountID : String
  currentBalance : Int
  pendingBalance : Int
  availableBalance : Int
  lastCalculated : GoTime
deriving DecidableEq, Repr

/-- The SQL function `update_account_balance(account_uuid)`: the upserted
`balances` row, aggregating the account's transactions with
`SUM(CASE WHEN status ... THEN amount ELSE 0 END)` per the migration. -/
def update_account_balance (txs : List Transaction) (accountID : String)
    (now : GoTime) : BalanceRow :=
  let rows := txs.filter (fun t => t.accountID == accountID)
  { accountID := accountID
    currentBalance :=
      (rows.map (fun t => if t.status = "cleared" then t.monetary.amount
        else 0)).sum
    pendingBalance :=
      (rows.map (fun t => if t.status = "pending" then t.monetary.amount
        else 0)).sum
    availableBalance :=
      (rows.map (fun t =>
        if t.status = "cleared" ∨ t.status = "pending" then t.monetary.amount
        else 0)).sum
    lastCalculated := now }

/-- `entities.BalanceSummary`. -/
structure BalanceSummary where
  totalAssets : Int
  totalLiabilities : Int
  netWorth : Int
  lastCalculated : GoTime
deriving DecidableEq, Repr

/-- Whether an account type falls in the SQL bucket
`type IN ('checking', 'savings', 'investment', 'cash')`. -/
def isAssetType : AccountType → Bool
  | AccountType.checking => true
  | AccountType.savings => true
  | AccountType.investment => true
  | AccountType.cash => true
  | AccountType.credit => false

/-- The inner join `FROM balances b JOIN accounts a ON b.account_id = a.id`
of the `GetBalanceSummary` query. -/
def balancesJoinAccounts (balances : List BalanceRow)
    (accounts : List Account) : List (Account × BalanceRow) :=
  balances.flatMap (fun b =>
    (accounts.filter (fun a => a.id == b.accountID)).map (fun a => (a, b)))

/-- The `GetBalanceSummary` SQL query: bucketed sums over the join of
balances and accounts, with `ABS` on credit balances. -/
def getBalanceSummary (accounts : List Account) (balances : List BalanceRow)
    (now : GoTime) : BalanceSummary :=
  let joined := balancesJoinAccounts balances accounts
  { totalAssets :=
      (joined.map (fun p =>
        if isAssetType p.1.type then p.2.currentBalance else 0)).sum
    totalLiabilities :=
      (joined.map (fun p =>
        if p.1.type = AccountType.credit then |p.2.currentBalance| else 0)).sum
    netWorth :=
      (joined.map (fun p =>
        if isAssetType p.1.type then p.2.currentBalance
        else -|p.2.currentBalance|)).sum
    lastCalculated := now }

/-- The decoded body of `POST /api/v1/transactions` and
`PUT /api/v1/transactions/{id}`.  Modelled from the spec for the amount
field: the handlers submit a temporary USD amount in minor units which the
use case re-denominates; the amount representation differs across handler
revisions and is irrelevant to the date-handling claims. -/
structure TransactionRequest where
  accountID : String
  categoryID : String
  amount : Int
  description : String
  date : String
  status : String
deriving DecidableEq, Repr

/-- Outcome of an HTTP handler: response status, error message (empty on
success), and whether the transaction use case was invoked. -/
structure HandlerOutcome where
  status : Nat
  errorMsg : String
  ucInvoked : Bool
deriving DecidableEq, Repr

/-- The `entities.Transaction` the transaction handlers build from a
decoded request body and parsed date. -/
def requestToTransaction (id : String) (req : TransactionRequest)
    (date : GoTime) : Transaction :=
  { id := id
    accountID := req.accountID
    categoryID := req.categoryID
    monetary := ⟨"USD", req.amount⟩
    description := req.description
    date := date
    status := req.status }

/-- `ApiHandlers.CreateTransaction` (after a successful JSON decode): parse
a non-empty date with the `2006-01-02` layout, answering 400 with
`errInvalidParameter` on failure before touching the use case; otherwise
run `CreateTransaction`, answering 400 on use-case error and 201 on
success. -/
def apiCreateTransaction (env : Env) (db : DB) (req : TransactionRequest) :
    HandlerOutcome :=
  let run : GoTime → HandlerOutcome := fun d =>
    match (createTransaction env db (requestToTransaction "" req d)).1 with
    | Except.error e => ⟨400, e, true⟩
    | Except.ok _ => ⟨201, "", true⟩
  if req.date ≠ "" then
    match parseYYYYMMDD req.date with
    | none => ⟨400, "invalid parameter date: " ++ req.date, false⟩
    | some d => run d
  else run GoTime.zero

/-- `ApiHandlers.UpdateTransaction`: reject an empty URL id with 400, parse
a non-empty date as in the create handler, then run `UpdateTransaction`,
answering 400 on use-case error and 200 on success. -/
def apiUpdateTransaction (env : Env) (db : DB) (id : String)
    (req : TransactionRequest) : HandlerOutcome :=
  if id = "" then ⟨400, "missing required parameter: id", false⟩
  else
    let run : GoTime → HandlerOutcome := fun d =>
      match (updateTransaction env db (requestToTransaction id req d)).1 with
      | Except.error e => ⟨400, e, true⟩
      | Except.ok _ => ⟨200, "", true⟩
    if req.date ≠ "" then
      match parseYYYYMMDD req.date with
      | none => ⟨400, "invalid parameter date: " ++ req.date, false⟩
      | some d => run d
    else run GoTime.zero

/-- `ApiHandlers.DeleteTransaction`: 400 for an empty id or a use-case
error, 204 on success. -/
def apiDeleteTransaction (db : DB) (id : String) : Nat :=
  if id = "" then 400
  else
    match (deleteTransaction db id).1 with
    | Except.error _ => 400
    | Except.ok _ => 204

/-- `ApiHandlers.DeleteAccount`: 400 for an empty id or a use-case error,
204 on success. -/
def apiDeleteAccount (db : DB) (id : String) : Nat :=
  if id = "" then 400
  else
    match (deleteAccount db id).1 with
    | Except.error _ => 400
    | Except.ok _ => 204

/-- `ApiHandlers.DeleteCategory`: 400 for an empty id or a use-case error,
204 on success. -/
def apiDeleteCategory (db : DB) (id : String) : Nat :=
  if id = "" then 400
  else
    match (deleteCategory db id).1 with
    | Except.error _ => 400
    | Except.ok _ => 204

/-- Whether a repository call mutates (deletes) state. -/
def RepoCall.isDelete : RepoCall → Bool
  | RepoCall.deleteTransaction _ => true
  | RepoCall.deleteAccount _ => true
  | RepoCall.deleteCategory _ => true
  | _ => false

/-- Sample environment: USD and BRL are recognized assets,
`time.Now()` is fixed at 2024-06-01 12:00:00. -/
def envUSD : Env := ⟨fun s => s == "USD" || s == "BRL", ⟨2024, 6, 1, 12, 0, 0⟩⟩

/-- Sample checking account denominated in USD. -/
def accChecking : Account := ⟨"a1", "Everyday", AccountType.checking, "USD", ""⟩

/-- Sample expense category. -/
def catGroceries : Category := ⟨"c1", "Groceries", CategoryType.expense, "#EF4444"⟩

/-- Sample income category. -/
def catSalary : Category := ⟨"c2", "Salary", CategoryType.income, "#10B981"⟩

/-- Sample transaction submission: positive amount, expense category. -/
def txLunch : Transaction :=
  ⟨"", "a1", "c1", ⟨"USD", 500⟩, "Lunch", ⟨2024, 1, 15, 0, 0, 0⟩, ""⟩

/-- Sample transaction submitted in BRL against the USD account. -/
def txImported : Transaction :=
  ⟨"", "a1", "c1", ⟨"BRL", 700⟩, "Import", ⟨2024, 2, 2, 0, 0, 0⟩, "cleared"⟩

/-- Sample stored transaction. -/
def txStored : Transaction :=
  ⟨"t1", "a1", "c1", ⟨"USD", 300⟩, "Stored", ⟨2024, 1, 10, 0, 0, 0⟩, "cleared"⟩

/-- Sample database with one account, two categories, one transaction. -/
def dbSample : DB := ⟨[accChecking], [catGroceries, catSalary], [txStored]⟩

/-! Helper lemmas. -/

@[simp] theorem convert_amount (env : Env) (t : Transaction) (a : Account) :
    (convertTransactionToAccountAsset env t a).monetary.amount =
      t.monetary.amount := by
  simp only [convertTransactionToAccountAsset, NewMonetary]
  split_ifs <;> simp

@[simp] theorem convert_categoryID (env : Env) (t : Transaction) (a : Account) :
    (convertTransactionToAccountAsset env t a).categoryID = t.categoryID := by
  simp only [convertTransactionToAccountAsset, NewMonetary]
  split_ifs <;> simp

@[simp] theorem convert_accountID (env : Env) (t : Transaction) (a : Account) :
    (convertTransactionToAccountAsset env t a).accountID = t.accountID := by
  simp only [convertTransactionToAccountAsset, NewMonetary]
  split_ifs <;> simp

@[simp] theorem convert_status (env : Env) (t : Transaction) (a : Account) :
    (convertTransactionToAccountAsset env t a).status = t.status := by
  simp only [convertTransactionToAccountAsset, NewMonetary]
  split_ifs <;> simp

@[simp] theorem convert_date (env : Env) (t : Transaction) (a : Account) :
    (convertTransactionToAccountAsset env t a).date = t.date := by
  simp only [convertTransactionToAccountAsset, NewMonetary]
  split_ifs <;> simp

theorem convert_asset_of_valid (env : Env) (t : Transaction) (a : Account)
    (h : env.validAsset a.asset = true) :
    (convertTransactionToAccountAsset env t a).monetary.asset = a.asset := by
  simp only [convertTransactionToAccountAsset, NewMonetary, h]
  split_ifs with h1 <;> simp [h1]

@[simp] theorem adjust_asset (env : Env) (t : Transaction) (c : Category) :
    (adjustTransactionAmount env t c).monetary.asset = t.monetary.asset := by
  simp only [adjustTransactionAmount, NewMonetary]
  split_ifs <;> simp

@[simp] theorem adjust_status (env : Env) (t : Transaction) (c : Category) :
    (adjustTransactionAmount env t c).status = t.status := by
  simp only [adjustTransactionAmount, NewMonetary]
  split_ifs <;> simp

@[simp] theorem adjust_date (env : Env) (t : Transaction) (c : Category) :
    (adjustTransactionAmount env t c).date = t.date := by
  simp only [adjustTransactionAmount, NewMonetary]
  split_ifs <;> simp

theorem createTransaction_ok_monetary {env : Env} {db : DB}
    {t r : Transaction} {tr : List RepoCall}
    (h : createTransaction env db t = (Except.ok r, tr)) :
    r.monetary = (convertTransactionToAccountAsset env t
      (getAccountByID db t.accountID)).monetary := by
  simp only [createTransaction] at h
  split at h
  · simp at h
  · split_ifs at h with hacc hcat hst hdz <;>
      simp only [Prod.mk.injEq, reduceCtorEq, false_and, Except.ok.injEq] at h <;>
      obtain ⟨hr, -⟩ := h <;> rw [← hr]

theorem createTransaction_ok_status {env : Env} {db : DB}
    {t r : Transaction} {tr : List RepoCall}
    (h : createTransaction env db t = (Except.ok r, tr)) :
    r.status = if t.status = "" then "cleared" else t.status := by
  simp only [createTransaction] at h
  split at h
  · simp at h
  · split_ifs at h with hacc hcat hst hdz <;>
      simp only [Prod.mk.injEq, reduceCtorEq, false_and, Except.ok.injEq] at h <;>
      rw [convert_status] at hst <;> obtain ⟨hr, -⟩ := h <;> rw [← hr] <;>
      simp [convert_status, hst]

theorem createTransaction_ok_date {env : Env} {db : DB}
    {t r : Transaction} {tr : List RepoCall}
    (h : createTransaction env db t = (Except.ok r, tr)) :
    r.date = if t.date.isZero then env.now else t.date := by
  simp only [createTransaction] at h
  split at h
  · simp at h
  · by_cases hacc : (getAccountByID db t.accountID).id = "" <;>
      by_cases hcat : (getCategoryByID db t.categoryID).id = "" <;>
      by_cases hst : t.status = "" <;>
      by_cases hdz : t.date.isZero = true <;>
      simp [convert_status, convert_date, convert_categoryID,
        hacc, hcat, hst, hdz] at h <;>
      obtain ⟨hr, -⟩ := h <;> rw [← hr] <;> simp [convert_date, hst, hdz]

theorem updateTransaction_ok_eq {env : Env} {db : DB} {t r : Transaction}
    {tr : List RepoCall}
    (h : updateTransaction env db t = (Except.ok r, tr)) :
    r = adjustTransactionAmount env
          (convertTransactionToAccountAsset env t (getAccountByID db t.accountID))
          (getCategoryByID db t.categoryID) := by
  simp only [updateTransaction] at h
  split at h
  · simp at h
  · by_cases hid : t.id = "" <;>
      by_cases htx : (getTransactionByID db t.id).id = "" <;>
      by_cases hacc : (getAccountByID db t.accountID).id = "" <;>
      by_cases hcat : (getCategoryByID db t.categoryID).id = "" <;>
      simp [convert_categoryID, hid, htx, hacc, hcat] at h <;>
      obtain ⟨hr, -⟩ := h <;> rw [← hr]

theorem adjust_eq_neg_of_expense {env : Env} {t : Transaction} {c : Category}
    (hct : c.type = CategoryType.expense) (hpos : 0 < t.monetary.amount)
    (hval : env.validAsset t.monetary.asset = true) :
    adjustTransactionAmount env t c =
      { t with monetary := ⟨t.monetary.asset, -t.monetary.amount⟩ } := by
  simp [adjustTransactionAmount, NewMonetary, hct, hpos, hval]

theorem adjust_eq_neg_of_income {env : Env} {t : Transaction} {c : Category}
    (hct : c.type = CategoryType.income) (hneg : t.monetary.amount < 0)
    (hval : env.validAsset t.monetary.asset = true) :
    adjustTransactionAmount env t c =
      { t with monetary := ⟨t.monetary.asset, -t.monetary.amount⟩ } := by
  simp [adjustTransactionAmount, NewMonetary, hct, hneg, hval]

theorem adjust_eq_id {env : Env} {t : Transaction} {c : Category}
    (h1 : ¬(c.type = CategoryType.expense ∧ 0 < t.monetary.amount))
    (h2 : ¬(c.type = CategoryType.income ∧ t.monetary.amount < 0)) :
    adjustTransactionAmount env t c = t := by
  simp only [adjustTransactionAmount, if_neg h1, if_neg h2]

/-! Claims. -/

/-- C10: for every transaction with nonzero amount and every category,
`adjustTransactionAmount` returns the amount or its negation; an expense
category yields a negative amount, an income category a positive one; and
the function is idempotent. -/
theorem c10_adjustTransactionAmount_sign_idempotent :
    ∀ (env : Env) (t : Transaction) (c : Category),
      t.monetary.amount ≠ 0 → env.validAsset t.monetary.asset = true →
      (((adjustTransactionAmount env t c).monetary.amount = t.monetary.amount ∨
        (adjustTransactionAmount env t c).monetary.amount = -t.monetary.amount) ∧
      (c.type = CategoryType.expense →
        (adjustTransactionAmount env t c).monetary.amount < 0) ∧
      (c.type = CategoryType.income →
        0 < (adjustTransactionAmount env t c).monetary.amount) ∧
      adjustTransactionAmount env (adjustTransactionAmount env t c) c =
        adjustTransactionAmount env t c) := by
  intro env t c hnz hval
  obtain ⟨tid, aid, cid, ⟨asset, amt⟩, desc, date, st⟩ := t
  dsimp only at hnz hval ⊢
  cases hct : c.type with
  | expense =>
    rcases lt_or_gt_of_ne hnz with hneg | hpos
    · have hid := @adjust_eq_id env
        ⟨tid, aid, cid, ⟨asset, amt⟩, desc, date, st⟩ c
        (by intro hcon; have h2 := hcon.2; dsimp only at h2; omega)
        (by intro hcon; rw [hct] at hcon; exact absurd hcon.1 (by decide))
      rw [hid]
      exact ⟨Or.inl rfl, fun _ => hneg, fun hcon => absurd hcon (by decide), hid⟩
    · have hr : adjustTransactionAmount env
          ⟨tid, aid, cid, ⟨asset, amt⟩, desc, date, st⟩ c =
          ⟨tid, aid, cid, ⟨asset, -amt⟩, desc, date, st⟩ := by
        simp [adjustTransactionAmount, NewMonetary, hct, hpos, hval]
      rw [hr]
      refine ⟨Or.inr rfl, fun _ => by show -amt < 0; omega,
        fun hcon => absurd hcon (by decide), ?_⟩
      exact adjust_eq_id
        (by intro hcon; exact absurd hcon.2 (by show ¬(0 < -amt); omega))
        (by intro hcon; rw [hct] at hcon; exact absurd hcon.1 (by decide))
  | income =>
    rcases lt_or_gt_of_ne hnz with hneg | hpos
    · have hr : adjustTransactionAmount env
          ⟨tid, aid, cid, ⟨asset, amt⟩, desc, date, st⟩ c =
          ⟨tid, aid, cid, ⟨asset, -amt⟩, desc, date, st⟩ := by
        simp [adjustTransactionAmount, NewMonetary, hct, hneg, hval]
      rw [hr]
      refine ⟨Or.inr rfl, fun hcon => absurd hcon (by decide),
        fun _ => by show 0 < -amt; omega, ?_⟩
      exact adjust_eq_id
        (by intro hcon; rw [hct] at hcon; exact absurd hcon.1 (by decide))
        (by intro hcon; exact absurd hcon.2 (by show ¬(-amt < 0); omega))
    · have hid := @adjust_eq_id env
        ⟨tid, aid, cid, ⟨asset, amt⟩, desc, date, st⟩ c
        (by intro hcon; rw [hct] at hcon; exact absurd hcon.1 (by decide))
        (by intro hcon; have h2 := hcon.2; dsimp only at h2; omega)
      rw [hid]
      exact ⟨Or.inl rfl, fun hcon => absurd hcon (by decide),
        fun _ => hpos, hid⟩

/-- Witness for C10 at a concrete expense transaction. -/
theorem c10_witness :
    txLunch.monetary.amount ≠ 0 ∧
    envUSD.validAsset txLunch.monetary.asset = true ∧
    (adjustTransactionAmount envUSD txLunch catGroceries).monetary.amount < 0 :=
  ⟨by decide, by decide,
    (c10_adjustTransactionAmount_sign_idempotent envUSD txLunch catGroceries
      (by decide) (by decide)).2.1 (by decide)⟩

/-- C5: re-denomination yields the account's asset with the numeric amount
unchanged; it is the identity when the assets already agree; no
exchange-rate conversion occurs; consequently the persisted transaction's
asset equals the owning account's asset on both create and update. -/
theorem c5_convert_redenominates_without_conversion :
    (∀ (env : Env) (t : Transaction) (a : Account),
      (convertTransactionToAccountAsset env t a).monetary.amount =
        t.monetary.amount) ∧
    (∀ (env : Env) (t : Transaction) (a : Account),
      t.monetary.asset = a.asset →
      convertTransactionToAccountAsset env t a = t) ∧
    (∀ (env : Env) (t : Transaction) (a : Account),
      env.validAsset a.asset = true →
      (convertTransactionToAccountAsset env t a).monetary.asset = a.asset) ∧
    (∀ (env : Env) (db : DB) (t r : Transaction) (tr : List RepoCall),
      env.validAsset (getAccountByID db t.accountID).asset = true →
      createTransaction env db t = (Except.ok r, tr) →
      r.monetary.asset = (getAccountByID db t.accountID).asset) ∧
    (∀ (env : Env) (db : DB) (t r : Transaction) (tr : List RepoCall),
      env.validAsset (getAccountByID db t.accountID).asset = true →
      updateTransaction env db t = (Except.ok r, tr) →
      r.monetary.asset = (getAccountByID db t.accountID).asset) := by
  refine ⟨convert_amount, ?_, convert_asset_of_valid, ?_, ?_⟩
  · intro env t a h
    simp [convertTransactionToAccountAsset, h]
  · intro env db t r tr hval h
    rw [createTransaction_ok_monetary h]
    exact convert_asset_of_valid _ _ _ hval
  · intro env db t r tr hval h
    rw [updateTransaction_ok_eq h, adjust_asset]
    exact convert_asset_of_valid _ _ _ hval

/-- Witness for C5: a BRL submission against the USD account is
re-denominated to USD with amount 700 on create, the identity case, and
the update path. -/
theorem c5_witness :
    (convertTransactionToAccountAsset envUSD txImported accChecking).monetary.amount
        = 700 ∧
    convertTransactionToAccountAsset envUSD txLunch accChecking = txLunch ∧
    (convertTransactionToAccountAsset envUSD txImported accChecking).monetary.asset
        = "USD" ∧
    (⟨"", "a1", "c1", ⟨"USD", 700⟩, "Import", ⟨2024, 2, 2, 0, 0, 0⟩,
        "cleared"⟩ : Transaction).monetary.asset = "USD" ∧
    (⟨"t1", "a1", "c1", ⟨"USD", -300⟩, "Stored", ⟨2024, 1, 10, 0, 0, 0⟩,
        "cleared"⟩ : Transaction).monetary.asset = "USD" :=
  ⟨c5_convert_redenominates_without_conversion.1 envUSD txImported accChecking,
    c5_convert_redenominates_without_conversion.2.1 envUSD txLunch accChecking
      (by decide),
    c5_convert_redenominates_without_conversion.2.2.1 envUSD txImported
      accChecking (by decide),
    c5_convert_redenominates_without_conversion.2.2.2.1 envUSD dbSample
      txImported
      ⟨"", "a1", "c1", ⟨"USD", 700⟩, "Import", ⟨2024, 2, 2, 0, 0, 0⟩, "cleared"⟩
      [RepoCall.getAccount "a1", RepoCall.getCategory "c1",
        RepoCall.createTransaction
          ⟨"", "a1", "c1", ⟨"USD", 700⟩, "Import", ⟨2024, 2, 2, 0, 0, 0⟩,
            "cleared"⟩,
        RepoCall.refreshBalance "a1"]
      (by decide) (by decide),
    c5_convert_redenominates_without_conversion.2.2.2.2 envUSD dbSample
      txStored
      ⟨"t1", "a1", "c1", ⟨"USD", -300⟩, "Stored", ⟨2024, 1, 10, 0, 0, 0⟩,
        "cleared"⟩
      [RepoCall.getTransaction "t1", RepoCall.getAccount "a1",
        RepoCall.getCategory "c1",
        RepoCall.updateTransaction
          ⟨"t1", "a1", "c1", ⟨"USD", -300⟩, "Stored", ⟨2024, 1, 10, 0, 0, 0⟩,
            "cleared"⟩,
        RepoCall.refreshBalance "a1"]
      (by decide) (by decide)⟩

/-- C1: sign correction is applied on update only.  On a successful update
with the loaded category of type expense and a positive amount, the
persisted amount is the negation; income and negative, the negation;
otherwise unchanged.  A successful create always keeps the caller's
amount. -/
theorem c1_sign_correction_on_update_only :
    (∀ (env : Env) (db : DB) (t : Transaction) (a : Account) (c : Category)
        (r : Transaction) (tr : List RepoCall),
      db.accounts.find? (fun x => x.id == t.accountID) = some a →
      env.validAsset a.asset = true →
      db.categories.find? (fun x => x.id == t.categoryID) = some c →
      updateTransaction env db t = (Except.ok r, tr) →
      ((c.type = CategoryType.expense → 0 < t.monetary.amount →
          r.monetary.amount = -t.monetary.amount) ∧
        (c.type = CategoryType.income → t.monetary.amount < 0 →
          r.monetary.amount = -t.monetary.amount) ∧
        (¬(c.type = CategoryType.expense ∧ 0 < t.monetary.amount) →
          ¬(c.type = CategoryType.income ∧ t.monetary.amount < 0) →
          r.monetary.amount = t.monetary.amount))) ∧
    (∀ (env : Env) (db : DB) (t r : Transaction) (tr : List RepoCall),
      createTransaction env db t = (Except.ok r, tr) →
      r.monetary.amount = t.monetary.amount) := by
  constructor
  · intro env db t a c r tr hfa hval hfc h
    have hacc : getAccountByID db t.accountID = a := by
      simp [getAccountByID, hfa]
    have hcat : getCategoryByID db t.categoryID = c := by
      simp [getCategoryByID, hfc]
    have hr := updateTransaction_ok_eq h
    rw [hacc, hcat] at hr
    have hamt : (convertTransactionToAccountAsset env t a).monetary.amount =
        t.monetary.amount := convert_amount env t a
    have hval1 : env.validAsset
        (convertTransactionToAccountAsset env t a).monetary.asset = true := by
      rw [convert_asset_of_valid env t a hval]
      exact hval
    refine ⟨?_, ?_, ?_⟩
    · intro hct hpos
      rw [hr, adjust_eq_neg_of_expense hct (by rw [hamt]; exact hpos) hval1]
      simp [hamt]
    · intro hct hneg
      rw [hr, adjust_eq_neg_of_income hct (by rw [hamt]; exact hneg) hval1]
      simp [hamt]
    · intro h1 h2
      rw [hr, adjust_eq_id (by rw [hamt]; exact h1) (by rw [hamt]; exact h2),
        hamt]
  · intro env db t r tr h
    rw [createTransaction_ok_monetary h]
    exact convert_amount env t (getAccountByID db t.accountID)

/-- Witness for C1: updating the stored +300 expense transaction persists
−300, while creating the +500 expense submission keeps +500. -/
theorem c1_witness :
    (⟨"t1", "a1", "c1", ⟨"USD", -300⟩, "Stored", ⟨2024, 1, 10, 0, 0, 0⟩,
        "cleared"⟩ : Transaction).monetary.amount =
      -txStored.monetary.amount ∧
    (⟨"", "a1", "c1", ⟨"USD", 500⟩, "Lunch", ⟨2024, 1, 15, 0, 0, 0⟩,
        "cleared"⟩ : Transaction).monetary.amount = txLunch.monetary.amount :=
  ⟨(c1_sign_correction_on_update_only.1 envUSD dbSample txStored accChecking
      catGroceries
      ⟨"t1", "a1", "c1", ⟨"USD", -300⟩, "Stored", ⟨2024, 1, 10, 0, 0, 0⟩,
        "cleared"⟩
      [RepoCall.getTransaction "t1", RepoCall.getAccount "a1",
        RepoCall.getCategory "c1",
        RepoCall.updateTransaction
          ⟨"t1", "a1", "c1", ⟨"USD", -300⟩, "Stored", ⟨2024, 1, 10, 0, 0, 0⟩,
            "cleared"⟩,
        RepoCall.refreshBalance "a1"]
      (by decide) (by decide) (by decide) (by decide)).1 (by decide) (by decide),
    c1_sign_correction_on_update_only.2 envUSD dbSample txLunch
      ⟨"", "a1", "c1", ⟨"USD", 500⟩, "Lunch", ⟨2024, 1, 15, 0, 0, 0⟩, "cleared"⟩
      [RepoCall.getAccount "a1", RepoCall.getCategory "c1",
        RepoCall.createTransaction
          ⟨"", "a1", "c1", ⟨"USD", 500⟩, "Lunch", ⟨2024, 1, 15, 0, 0, 0⟩,
            "cleared"⟩,
        RepoCall.refreshBalance "a1"]
      (by decide)⟩

/-- C2 counterexample: creating the +500 transaction against the expense
category persists +500 — a positive, not negative, amount — refuting the
claim that the create path sign-corrects. -/
theorem c2_counterexample :
    catGroceries.type = CategoryType.expense ∧
    txLunch.categoryID = catGroceries.id ∧
    0 < txLunch.monetary.amount ∧
    (createTransaction envUSD dbSample txLunch).1 =
      Except.ok ⟨"", "a1", "c1", ⟨"USD", 500⟩, "Lunch", ⟨2024, 1, 15, 0, 0, 0⟩,
        "cleared"⟩ ∧
    ¬((⟨"", "a1", "c1", ⟨"USD", 500⟩, "Lunch", ⟨2024, 1, 15, 0, 0, 0⟩,
        "cleared"⟩ : Transaction).monetary.amount < 0) := by decide

/-- C2 amended: after a successful `CreateTransaction` the persisted amount
equals the submitted amount — in particular a positive submission against
an expense category stays positive; sign-correction happens only on the
update path. -/
theorem c2_create_keeps_submitted_sign :
    ∀ (env : Env) (db : DB) (t r : Transaction) (tr : List RepoCall),
      createTransaction env db t = (Except.ok r, tr) →
      0 < t.monetary.amount →
      0 < r.monetary.amount ∧ r.monetary.amount = t.monetary.amount := by
  intro env db t r tr h hpos
  have hm : r.monetary.amount = t.monetary.amount := by
    rw [createTransaction_ok_monetary h]
    exact convert_amount env t (getAccountByID db t.accountID)
  exact ⟨hm ▸ hpos, hm⟩

/-- Witness for C2 (amended) at the +500 expense-category creation. -/
theorem c2_witness :
    0 < (⟨"", "a1", "c1", ⟨"USD", 500⟩, "Lunch", ⟨2024, 1, 15, 0, 0, 0⟩,
        "cleared"⟩ : Transaction).monetary.amount :=
  (c2_create_keeps_submitted_sign envUSD dbSample txLunch
    ⟨"", "a1", "c1", ⟨"USD", 500⟩, "Lunch", ⟨2024, 1, 15, 0, 0, 0⟩, "cleared"⟩
    [RepoCall.getAccount "a1", RepoCall.getCategory "c1",
      RepoCall.createTransaction
        ⟨"", "a1", "c1", ⟨"USD", 500⟩, "Lunch", ⟨2024, 1, 15, 0, 0, 0⟩,
          "cleared"⟩,
      RepoCall.refreshBalance "a1"]
    (by decide) (by decide)).1

theorem digitVal_le_nine {c : Char} (h : isDigitChar c = true) :
    digitVal c ≤ 9 := by
  simp only [isDigitChar, Bool.and_eq_true, decide_eq_true_eq] at h
  unfold digitVal
  omega

theorem ofNat_add_digitVal {c : Char} (h : isDigitChar c = true) :
    Char.ofNat (48 + digitVal c) = c := by
  simp only [isDigitChar, Bool.and_eq_true, decide_eq_true_eq] at h
  have he : 48 + digitVal c = c.toNat := by unfold digitVal; omega
  rw [he, Char.ofNat_toNat]

theorem pad2_digits {x y : Nat} (hx : x ≤ 9) (hy : y ≤ 9) :
    pad2 (10 * x + y) = [Char.ofNat (48 + x), Char.ofNat (48 + y)] := by
  have h1 : (10 * x + y) / 10 % 10 = x := by omega
  have h2 : (10 * x + y) % 10 = y := by omega
  simp only [pad2]
  rw [h1, h2]

theorem pad4_digits {a b c d : Nat} (ha : a ≤ 9) (hb : b ≤ 9) (hc : c ≤ 9)
    (hd : d ≤ 9) :
    pad4 (1000 * a + 100 * b + 10 * c + d) =
      [Char.ofNat (48 + a), Char.ofNat (48 + b), Char.ofNat (48 + c),
        Char.ofNat (48 + d)] := by
  have h1 : (1000 * a + 100 * b + 10 * c + d) / 1000 % 10 = a := by omega
  have h2 : (1000 * a + 100 * b + 10 * c + d) / 100 % 10 = b := by omega
  have h3 : (1000 * a + 100 * b + 10 * c + d) / 10 % 10 = c := by omega
  have h4 : (1000 * a + 100 * b + 10 * c + d) % 10 = d := by omega
  simp only [pad4]
  rw [h1, h2, h3, h4]

theorem parse_midnight_format {s : String} {t : GoTime}
    (h : parseYYYYMMDD s = some t) :
    t.hour = 0 ∧ t.minute = 0 ∧ t.second = 0 ∧ formatYYYYMMDD t = s := by
  unfold parseYYYYMMDD at h
  split at h
  case h_2 => exact absurd h (by simp)
  case h_1 y1 y2 y3 y4 c1 m1 m2 c2 d1 d2 heq =>
    split_ifs at h with hc
    · dsimp only at h
      split_ifs at h with hr
      simp only [Option.some.injEq] at h
      subst h
      refine ⟨rfl, rfl, rfl, ?_⟩
      simp only [Bool.and_eq_true, beq_iff_eq] at hc
      obtain ⟨⟨⟨⟨⟨⟨⟨⟨⟨hy1, hy2⟩, hy3⟩, hy4⟩, hh1⟩, hh2⟩, hm1⟩, hm2⟩, hd1⟩,
        hd2⟩ := hc
      have hs : String.mk s.toList = s := by cases s; rfl
      rw [← hs, heq]
      simp only [formatYYYYMMDD]
      rw [pad4_digits (digitVal_le_nine hy1) (digitVal_le_nine hy2)
          (digitVal_le_nine hy3) (digitVal_le_nine hy4),
        pad2_digits (digitVal_le_nine hm1) (digitVal_le_nine hm2),
        pad2_digits (digitVal_le_nine hd1) (digitVal_le_nine hd2),
        ofNat_add_digitVal hy1, ofNat_add_digitVal hy2, ofNat_add_digitVal hy3,
        ofNat_add_digitVal hy4, ofNat_add_digitVal hm1, ofNat_add_digitVal hm2,
        ofNat_add_digitVal hd1, ofNat_add_digitVal hd2, hh1, hh2]
      rfl

/-- C6: on create only, an empty status defaults to cleared and a zero
date defaults to the current time (non-empty statuses and nonzero dates
are kept, and update defaults neither); a `YYYY-MM-DD` date string parses
to exactly that calendar date at midnight UTC. -/
theorem c6_create_defaults_and_date_parsing :
    (∀ (env : Env) (db : DB) (t r : Transaction) (tr : List RepoCall),
      createTransaction env db t = (Except.ok r, tr) →
      ((t.status = "" → r.status = "cleared") ∧
        (t.status ≠ "" → r.status = t.status) ∧
        (t.date.isZero = true → r.date = env.now) ∧
        (t.date.isZero = false → r.date = t.date))) ∧
    (∀ (env : Env) (db : DB) (t r : Transaction) (tr : List RepoCall),
      updateTransaction env db t = (Except.ok r, tr) →
      r.status = t.status ∧ r.date = t.date) ∧
    (∀ (s : String) (t : GoTime), parseYYYYMMDD s = some t →
      t.hour = 0 ∧ t.minute = 0 ∧ t.second = 0 ∧ formatYYYYMMDD t = s) := by
  refine ⟨?_, ?_, fun s t h => parse_midnight_format h⟩
  · intro env db t r tr h
    have hst := createTransaction_ok_status h
    have hdt := createTransaction_ok_date h
    refine ⟨fun h1 => ?_, fun h1 => ?_, fun h1 => ?_, fun h1 => ?_⟩
    · rw [hst, if_pos h1]
    · rw [hst, if_neg h1]
    · rw [hdt, if_pos h1]
    · rw [hdt, if_neg (by rw [h1]; exact Bool.false_ne_true)]
  · intro env db t r tr h
    rw [updateTransaction_ok_eq h]
    constructor
    · rw [adjust_status, convert_status]
    · rw [adjust_date, convert_date]

/-- Witness for C6: the empty-status creation persists status cleared, a
zero-date creation persists the current time, the stored update keeps its
status, and "2023-05-17" parses to 2023-05-17 at midnight. -/
theorem c6_witness :
    (⟨"", "a1", "c1", ⟨"USD", 500⟩, "Lunch", ⟨2024, 1, 15, 0, 0, 0⟩,
        "cleared"⟩ : Transaction).status = "cleared" ∧
    (⟨"", "a1", "c1", ⟨"USD", 200⟩, "Coffee", envUSD.now, "pending"⟩ :
        Transaction).date = envUSD.now ∧
    (⟨"t1", "a1", "c1", ⟨"USD", -300⟩, "Stored", ⟨2024, 1, 10, 0, 0, 0⟩,
        "cleared"⟩ : Transaction).status = txStored.status ∧
    formatYYYYMMDD ⟨2023, 5, 17, 0, 0, 0⟩ = "2023-05-17" :=
  ⟨(c6_create_defaults_and_date_parsing.1 envUSD dbSample txLunch
      ⟨"", "a1", "c1", ⟨"USD", 500⟩, "Lunch", ⟨2024, 1, 15, 0, 0, 0⟩, "cleared"⟩
      [RepoCall.getAccount "a1", RepoCall.getCategory "c1",
        RepoCall.createTransaction
          ⟨"", "a1", "c1", ⟨"USD", 500⟩, "Lunch", ⟨2024, 1, 15, 0, 0, 0⟩,
            "cleared"⟩,
        RepoCall.refreshBalance "a1"]
      (by decide)).1 (by decide),
    (c6_create_defaults_and_date_parsing.1 envUSD dbSample
      ⟨"", "a1", "c1", ⟨"USD", 200⟩, "Coffee", GoTime.zero, "pending"⟩
      ⟨"", "a1", "c1", ⟨"USD", 200⟩, "Coffee", envUSD.now, "pending"⟩
      [RepoCall.getAccount "a1", RepoCall.getCategory "c1",
        RepoCall.createTransaction
          ⟨"", "a1", "c1", ⟨"USD", 200⟩, "Coffee", envUSD.now, "pending"⟩,
        RepoCall.refreshBalance "a1"]
      (by decide)).2.2.1 (by decide),
    ((c6_create_defaults_and_date_parsing.2.1 envUSD dbSample txStored
      ⟨"t1", "a1", "c1", ⟨"USD", -300⟩, "Stored", ⟨2024, 1, 10, 0, 0, 0⟩,
        "cleared"⟩
      [RepoCall.getTransaction "t1", RepoCall.getAccount "a1",
        RepoCall.getCategory "c1",
        RepoCall.updateTransaction
          ⟨"t1", "a1", "c1", ⟨"USD", -300⟩, "Stored", ⟨2024, 1, 10, 0, 0, 0⟩,
            "cleared"⟩,
        RepoCall.refreshBalance "a1"]
      (by decide)).1 : _),
    (c6_create_defaults_and_date_parsing.2.2 "2023-05-17" ⟨2023, 5, 17, 0, 0, 0⟩
      (by decide)).2.2.2⟩

theorem validateTransaction_none_iff (t : Transaction) :
    validateTransaction t = none ↔ ¬InvalidInput t := by
  unfold validateTransaction InvalidInput
  split_ifs with h1 h2 h3 h4 h5 <;> simp_all

/-- C7: `CreateTransaction` and `UpdateTransaction` return an error with an
empty repository-call trace — hence before any repository call and with no
state change — exactly on the claim's invalid inputs, and validation
passes whenever none of the conditions holds. -/
theorem c7_validation_before_any_repository_call :
    (∀ t : Transaction, validateTransaction t = none ↔ ¬InvalidInput t) ∧
    (∀ (env : Env) (db : DB) (t : Transaction), InvalidInput t →
      ((createTransaction env db t).2 = [] ∧
        (∃ e, (createTransaction env db t).1 = Except.error e)) ∧
      ((updateTransaction env db t).2 = [] ∧
        (∃ e, (updateTransaction env db t).1 = Except.error e))) := by
  refine ⟨validateTransaction_none_iff, ?_⟩
  intro env db t hinv
  cases hvt : validateTransaction t with
  | none => exact absurd hinv ((validateTransaction_none_iff t).mp hvt)
  | some e =>
    refine ⟨⟨?_, e, ?_⟩, ?_, e, ?_⟩ <;>
      simp [createTransaction, updateTransaction, hvt]

/-- Witness for C7 at an input with empty account id, whitespace-only
description and an out-of-enum status. -/
theorem c7_witness :
    ((createTransaction envUSD dbSample
        ⟨"", "", "c1", ⟨"USD", 500⟩, " ", ⟨2024, 1, 15, 0, 0, 0⟩,
          "bogus"⟩).2 = [] ∧
      (∃ e, (createTransaction envUSD dbSample
        ⟨"", "", "c1", ⟨"USD", 500⟩, " ", ⟨2024, 1, 15, 0, 0, 0⟩,
          "bogus"⟩).1 = Except.error e)) ∧
    ((updateTransaction envUSD dbSample
        ⟨"", "", "c1", ⟨"USD", 500⟩, " ", ⟨2024, 1, 15, 0, 0, 0⟩,
          "bogus"⟩).2 = [] ∧
      (∃ e, (updateTransaction envUSD dbSample
        ⟨"", "", "c1", ⟨"USD", 500⟩, " ", ⟨2024, 1, 15, 0, 0, 0⟩,
          "bogus"⟩).1 = Except.error e)) :=
  c7_validation_before_any_repository_call.2 envUSD dbSample
    ⟨"", "", "c1", ⟨"USD", 500⟩, " ", ⟨2024, 1, 15, 0, 0, 0⟩, "bogus"⟩
    (Or.inl rfl)

theorem invalid_parameter_message_ne_empty (s : String) :
    "invalid parameter date: " ++ s ≠ "" := by
  intro hcon
  have hd := congrArg String.data hcon
  simp [String.data_append] at hd

/-- C8: a non-empty date that fails the `YYYY-MM-DD` parse makes both the
create and the update transaction handlers answer 400 with a non-empty
error message, without ever invoking the transaction use case. -/
theorem c8_unparseable_date_rejected_before_usecase :
    ∀ (env : Env) (db : DB) (req : TransactionRequest) (id : String),
      req.date ≠ "" → parseYYYYMMDD req.date = none →
      ((apiCreateTransaction env db req).status = 400 ∧
        (apiCreateTransaction env db req).errorMsg ≠ "" ∧
        (apiCreateTransaction env db req).ucInvoked = false) ∧
      ((apiUpdateTransaction env db id req).status = 400 ∧
        (apiUpdateTransaction env db id req).errorMsg ≠ "" ∧
        (apiUpdateTransaction env db id req).ucInvoked = false) := by
  intro env db req id hne hparse
  constructor
  · simp [apiCreateTransaction, hne, hparse,
      invalid_parameter_message_ne_empty]
  · by_cases hid : id = ""
    · simp [apiUpdateTransaction, hid]
    · simp [apiUpdateTransaction, hid, hne, hparse,
        invalid_parameter_message_ne_empty]

/-- Witness for C8 at the slash-separated date string "2024/01/02". -/
theorem c8_witness :
    ((apiCreateTransaction envUSD dbSample
        ⟨"a1", "c1", 500, "Lunch", "2024/01/02", ""⟩).status = 400 ∧
      (apiCreateTransaction envUSD dbSample
        ⟨"a1", "c1", 500, "Lunch", "2024/01/02", ""⟩).errorMsg ≠ "" ∧
      (apiCreateTransaction envUSD dbSample
        ⟨"a1", "c1", 500, "Lunch", "2024/01/02", ""⟩).ucInvoked = false) ∧
    ((apiUpdateTransaction envUSD dbSample "t1"
        ⟨"a1", "c1", 500, "Lunch", "2024/01/02", ""⟩).status = 400 ∧
      (apiUpdateTransaction envUSD dbSample "t1"
        ⟨"a1", "c1", 500, "Lunch", "2024/01/02", ""⟩).errorMsg ≠ "" ∧
      (apiUpdateTransaction envUSD dbSample "t1"
        ⟨"a1", "c1", 500, "Lunch", "2024/01/02", ""⟩).ucInvoked = false) :=
  c8_unparseable_date_rejected_before_usecase envUSD dbSample
    ⟨"a1", "c1", 500, "Lunch", "2024/01/02", ""⟩ "t1" (by decide) (by decide)

/-- C9: for an id with no stored row, `DeleteTransaction`, `DeleteAccount`
and `DeleteCategory` fail with an error, issue no delete repository call,
and the HTTP delete handlers answer 400 (a client error, never 204). -/
theorem c9_delete_nonexistent_is_client_error :
    ∀ (db : DB) (id : String),
      (db.transactions.find? (fun t => t.id == id) = none →
        (∃ e, (deleteTransaction db id).1 = Except.error e) ∧
        (∀ c ∈ (deleteTransaction db id).2, c.isDelete = false) ∧
        apiDeleteTransaction db id = 400) ∧
      (db.accounts.find? (fun a => a.id == id) = none →
        (∃ e, (deleteAccount db id).1 = Except.error e) ∧
        (∀ c ∈ (deleteAccount db id).2, c.isDelete = false) ∧
        apiDeleteAccount db id = 400) ∧
      (db.categories.find? (fun c => c.id == id) = none →
        (∃ e, (deleteCategory db id).1 = Except.error e) ∧
        (∀ c ∈ (deleteCategory db id).2, c.isDelete = false) ∧
        apiDeleteCategory db id = 400) := by
  intro db id
  refine ⟨fun hfind => ?_, fun hfind => ?_, fun hfind => ?_⟩ <;>
    by_cases hid : id = "" <;>
    simp [deleteTransaction, deleteAccount, deleteCategory,
      apiDeleteTransaction, apiDeleteAccount, apiDeleteCategory,
      getTransactionByID, getAccountByID, getCategoryByID, Account.empty,
      hfind, hid, RepoCall.isDelete]

/-- Witness for C9 at the absent id "ghost". -/
theorem c9_witness :
    ((∃ e, (deleteTransaction dbSample "ghost").1 = Except.error e) ∧
      (∀ c ∈ (deleteTransaction dbSample "ghost").2, c.isDelete = false) ∧
      apiDeleteTransaction dbSample "ghost" = 400) ∧
    ((∃ e, (deleteAccount dbSample "ghost").1 = Except.error e) ∧
      (∀ c ∈ (deleteAccount dbSample "ghost").2, c.isDelete = false) ∧
      apiDeleteAccount dbSample "ghost" = 400) ∧
    ((∃ e, (deleteCategory dbSample "ghost").1 = Except.error e) ∧
      (∀ c ∈ (deleteCategory dbSample "ghost").2, c.isDelete = false) ∧
      apiDeleteCategory dbSample "ghost" = 400) :=
  ⟨(c9_delete_nonexistent_is_client_error dbSample "ghost").1 (by decide),
    (c9_delete_nonexistent_is_client_error dbSample "ghost").2.1 (by decide),
    (c9_delete_nonexistent_is_client_error dbSample "ghost").2.2 (by decide)⟩

theorem sum_status_ite_eq_filter (rows : List Transaction) (s : String) :
    (rows.map (fun t => if t.status = s then t.monetary.amount else 0)).sum =
      ((rows.filter (fun t => t.status == s)).map
        (fun t => t.monetary.amount)).sum := by
  induction rows with
  | nil => rfl
  | cons x xs ih => by_cases h : x.status = s <;> simp [h, ih]

theorem sum_status_or_ite_eq_filter (rows : List Transaction) :
    (rows.map (fun t =>
      if t.status = "cleared" ∨ t.status = "pending" then t.monetary.amount
      else 0)).sum =
      ((rows.filter (fun t =>
        t.status == "cleared" || t.status == "pending")).map
        (fun t => t.monetary.amount)).sum := by
  induction rows with
  | nil => rfl
  | cons x xs ih =>
    by_cases hc : x.status = "cleared" <;> by_cases hp : x.status = "pending" <;>
      simp [hc, hp, ih]

theorem sum_status_or_ite_split (rows : List Transaction) :
    (rows.map (fun t =>
      if t.status = "cleared" ∨ t.status = "pending" then t.monetary.amount
      else 0)).sum =
      (rows.map (fun t =>
        if t.status = "cleared" then t.monetary.amount else 0)).sum +
      (rows.map (fun t =>
        if t.status = "pending" then t.monetary.amount else 0)).sum := by
  induction rows with
  | nil => rfl
  | cons x xs ih =>
    simp only [List.map_cons, List.sum_cons, ih]
    by_cases hc : x.status = "cleared" <;> by_cases hp : x.status = "pending" <;>
      simp [hc, hp] <;> ring

theorem filter_account_filter_status (txs : List Transaction) (acc : String)
    (p : Transaction → Bool) :
    (txs.filter (fun t => t.accountID == acc)).filter p =
      txs.filter (fun t => t.accountID == acc && p t) := by
  induction txs with
  | nil => rfl
  | cons x xs ih =>
    by_cases ha : x.accountID = acc <;> by_cases hp : p x = true <;>
      simp [ha, hp, ih]

/-- C3: the balance recomputed by `update_account_balance` has current =
sum of the account's cleared transaction amounts, pending = sum of its
pending amounts, available = sum over cleared and pending — hence
available = current + pending — and cancelled transactions contribute to
none of the three totals. -/
theorem c3_update_account_balance_totals :
    ∀ (txs : List Transaction) (acc : String) (now : GoTime),
      (update_account_balance txs acc now).currentBalance =
        ((txs.filter (fun t => t.accountID == acc && t.status == "cleared")).map
          (fun t => t.monetary.amount)).sum ∧
      (update_account_balance txs acc now).pendingBalance =
        ((txs.filter (fun t => t.accountID == acc && t.status == "pending")).map
          (fun t => t.monetary.amount)).sum ∧
      (update_account_balance txs acc now).availableBalance =
        ((txs.filter (fun t => t.accountID == acc &&
            (t.status == "cleared" || t.status == "pending"))).map
          (fun t => t.monetary.amount)).sum ∧
      (update_account_balance txs acc now).availableBalance =
        (update_account_balance txs acc now).currentBalance +
          (update_account_balance txs acc now).pendingBalance ∧
      (∀ tx : Transaction, tx.status = "cancelled" →
        update_account_balance (tx :: txs) acc now =
          update_account_balance txs acc now) := by
  intro txs acc now
  refine ⟨?_, ?_, ?_, ?_, ?_⟩
  · rw [show (update_account_balance txs acc now).currentBalance =
        ((txs.filter (fun t => t.accountID == acc)).map
          (fun t => if t.status = "cleared" then t.monetary.amount else 0)).sum
        from rfl,
      sum_status_ite_eq_filter, filter_account_filter_status]
  · rw [show (update_account_balance txs acc now).pendingBalance =
        ((txs.filter (fun t => t.accountID == acc)).map
          (fun t => if t.status = "pending" then t.monetary.amount else 0)).sum
        from rfl,
      sum_status_ite_eq_filter, filter_account_filter_status]
  · rw [show (update_account_balance txs acc now).availableBalance =
        ((txs.filter (fun t => t.accountID == acc)).map
          (fun t => if t.status = "cleared" ∨ t.status = "pending" then
            t.monetary.amount else 0)).sum from rfl,
      sum_status_or_ite_eq_filter, filter_account_filter_status]
  · exact sum_status_or_ite_split (txs.filter (fun t => t.accountID == acc))
  · intro tx hcan
    by_cases ha : tx.accountID = acc <;>
      simp [update_account_balance, ha, hcan]

/-- Witness for C3: a cancelled transaction added to the sample ledger
leaves the recomputed balance row unchanged. -/
theorem c3_witness :
    update_account_balance
        (⟨"t9", "a1", "c1", ⟨"USD", 999⟩, "Void", ⟨2024, 3, 3, 0, 0, 0⟩,
          "cancelled"⟩ :: [txStored]) "a1" GoTime.zero =
      update_account_balance [txStored] "a1" GoTime.zero :=
  (c3_update_account_balance_totals [txStored] "a1" GoTime.zero).2.2.2.2
    ⟨"t9", "a1", "c1", ⟨"USD", 999⟩, "Void", ⟨2024, 3, 3, 0, 0, 0⟩, "cancelled"⟩
    rfl

theorem net_sum_eq_asset_sum_sub_liability_sum
    (l : List (Account × BalanceRow)) :
    (l.map (fun p =>
      if isAssetType p.1.type then p.2.currentBalance
      else -|p.2.currentBalance|)).sum =
      (l.map (fun p =>
        if isAssetType p.1.type then p.2.currentBalance else 0)).sum -
      (l.map (fun p =>
        if p.1.type = AccountType.credit then |p.2.currentBalance|
        else 0)).sum := by
  induction l with
  | nil => rfl
  | cons x xs ih =>
    simp only [List.map_cons, List.sum_cons, ih]
    cases hx : x.1.type <;> simp [isAssetType, hx] <;> ring

theorem sum_pair_ite_eq_filter (l : List (Account × BalanceRow))
    (p : Account × BalanceRow → Bool) (f : Account × BalanceRow → Int) :
    (l.map (fun x => if p x then f x else 0)).sum =
      ((l.filter p).map f).sum := by
  induction l with
  | nil => rfl
  | cons x xs ih => by_cases h : p x = true <;> simp [h, ih]

theorem sum_pair_ite_eq_filterP (l : List (Account × BalanceRow))
    (p : Account × BalanceRow → Prop) [DecidablePred p]
    (f : Account × BalanceRow → Int) :
    (l.map (fun x => if p x then f x else 0)).sum =
      ((l.filter (fun x => decide (p x))).map f).sum := by
  induction l with
  | nil => rfl
  | cons x xs ih => by_cases h : p x <;> simp [h, ih]

/-- C4: the summary computed by `GetBalanceSummary` satisfies net worth =
total assets − total liabilities, where total assets sums current balances
of checking/savings/investment/cash accounts and total liabilities sums
absolute current balances of credit accounts over the balances-accounts
join. -/
theorem c4_net_worth_eq_assets_sub_liabilities :
    ∀ (accounts : List Account) (balances : List BalanceRow) (now : GoTime),
      (getBalanceSummary accounts balances now).netWorth =
        (getBalanceSummary accounts balances now).totalAssets -
          (getBalanceSummary accounts balances now).totalLiabilities ∧
      (getBalanceSummary accounts balances now).totalAssets =
        (((balancesJoinAccounts balances accounts).filter
            (fun p => isAssetType p.1.type)).map
          (fun p => p.2.currentBalance)).sum ∧
      (getBalanceSummary accounts balances now).totalLiabilities =
        (((balancesJoinAccounts balances accounts).filter
            (fun p => decide (p.1.type = AccountType.credit))).map
          (fun p => |p.2.currentBalance|)).sum := by
  intro accounts balances now
  exact ⟨net_sum_eq_asset_sum_sub_liability_sum _,
    sum_pair_ite_eq_filter _ _ _, sum_pair_ite_eq_filterP _ _ _⟩

end Finance
